import Mathlib

/-!
Shallow embedding of the OAuth token lifecycle of the reddit-mcp server
(`src/auth/oauth.ts`, `src/auth/oauth-server.ts`, token types from
`src/types/reddit.ts`).

Modelling conventions:
* JS `number` timestamps and lifetimes are `Int` (epoch milliseconds).
* Network calls are suspend points whose outcomes are passed in as explicit
  `Except String _` parameters: `.error e` is a transport failure or a
  non-success HTTP/parse outcome, `.ok d` is a parsed token-endpoint body.
* The filesystem behind the token store is a `FileState`; the outcome of a
  `fs.writeFile` is an explicit `Except String Unit` parameter.
* Effectful methods return a result record carrying the value produced, the
  effects performed (network requests, listener invocations, whether the
  callback server was closed) so frame conditions are statable.
-/

/-- `StoredToken` from `src/types/reddit.ts`: the persisted/held credential. -/
structure StoredToken where
  accessToken : String
  refreshToken : String
  expiresAt : Int
  scope : String
  deriving DecidableEq, Repr

/-- `RedditTokenResponseSchema` from `src/types/reddit.ts`: the parsed body of a
token-endpoint response; `refresh_token` is optional. -/
structure RedditTokenResponse where
  access_token : String
  token_type : String
  expires_in : Int
  refresh_token : Option String
  scope : String
  deriving DecidableEq, Repr

namespace RedditOAuth

/-- The error thrown at `oauth.ts:50` when a code exchange yields no refresh token. -/
def noRefreshTokenMsg : String :=
  "No refresh token received. Ensure duration=permanent in auth request."

/-- `RedditOAuth.exchangeCodeForToken` (`oauth.ts:39-59`), given the outcome of
the POST to the token endpoint. JS `!data.refresh_token` is true for an absent
or empty `refresh_token`, in which case the exchange throws. -/
def exchangeCodeForToken (now : Int) (resp : Except String RedditTokenResponse) :
    Except String StoredToken :=
  match resp with
  | .error e => .error e
  | .ok d =>
    if d.refresh_token.getD "" = "" then .error noRefreshTokenMsg
    else .ok { accessToken := d.access_token
               refreshToken := d.refresh_token.getD ""
               expiresAt := now + d.expires_in * 1000
               scope := d.scope }

/-- The token built at `oauth.ts:70-75`: `data.refresh_token || refreshToken`
falls back to the previous refresh token when the response field is absent
*or* an empty string (JS truthiness). -/
def refreshedToken (refreshToken : String) (now : Int) (d : RedditTokenResponse) :
    StoredToken :=
  { accessToken := d.access_token
    refreshToken := if d.refresh_token.getD "" = "" then refreshToken
                    else d.refresh_token.getD ""
    expiresAt := now + d.expires_in * 1000
    scope := d.scope }

/-- `RedditOAuth.refreshAccessToken` (`oauth.ts:61-76`), given the outcome of
the POST to the token endpoint. No refresh-token check: a missing field keeps
the old one. -/
def refreshAccessToken (refreshToken : String) (now : Int)
    (resp : Except String RedditTokenResponse) : Except String StoredToken :=
  match resp with
  | .error e => .error e
  | .ok d => .ok (refreshedToken refreshToken now d)

end RedditOAuth

namespace TokenManager

/-- `TokenManager.refreshBuffer` (`oauth.ts:82`): 5 minutes in milliseconds. -/
def refreshBuffer : Int := 5 * 60 * 1000

/-- Observable effects of one `getToken()` call, in the order they happen
before the call returns. -/
inductive TMEvent where
  | refreshRequest
  | listenerInvoked
  deriving DecidableEq, Repr

/-- Result of one `getToken()` call: the held credential afterwards, the
ordered effects performed before returning, whether the bound update listener
logged a persistence failure, and the value returned / error propagated. -/
structure GetTokenRun where
  finalToken : StoredToken
  events : List TMEvent
  saveFailureLogged : Bool
  result : Except String String
  deriving Repr

/-- Outcome of the update listener wired by `OAuthServer.getTokenManager`
(`oauth-server.ts:33-37`): it calls `saveToken` and swallows a rejection,
logging it; returns whether a failure was logged. It never throws. -/
def onTokenUpdate (saveOutcome : Except String Unit) : Bool :=
  match saveOutcome with
  | .ok _ => false
  | .error _ => true

/-- `TokenManager.getToken` (`oauth.ts:91-102`) for a single, uncontended call.
If `expiresAt - now < refreshBuffer`, `refresh()` awaits
`oauth.refreshAccessToken`, replaces the held token and invokes the update
listener, then `getToken` returns the (new) access token; a refresh failure
propagates and leaves the token and listener untouched. `saveOutcome` is the
outcome of the `saveToken` performed by the listener of
`OAuthServer.getTokenManager`. -/
def getToken (now : Int) (t : StoredToken) (resp : Except String RedditTokenResponse)
    (saveOutcome : Except String Unit) : GetTokenRun :=
  if t.expiresAt - now < refreshBuffer then
    match RedditOAuth.refreshAccessToken t.refreshToken now resp with
    | .ok t' =>
      { finalToken := t'
        events := [.refreshRequest, .listenerInvoked]
        saveFailureLogged := onTokenUpdate saveOutcome
        result := .ok t'.accessToken }
    | .error e =>
      { finalToken := t, events := [.refreshRequest]
        saveFailureLogged := false, result := .error e }
  else
    { finalToken := t, events := [], saveFailureLogged := false
      result := .ok t.accessToken }

/-! ### Event-loop model for concurrent `getToken()` calls

`TokenManager` has four fields (`oauth`, `token`, `refreshBuffer`,
`onTokenUpdate`) and no in-flight-promise guard. Under the JS event loop, each
`getToken()` call runs its synchronous prefix — the staleness check at
`oauth.ts:93` up to the suspension inside `refreshAccessToken`'s HTTP POST —
atomically; a network response can only be delivered in a later macrotask.  So
for calls started in the same tick (e.g. `Promise.all`), every synchronous
prefix runs before any refresh response arrives. -/

/-- Scheduling phase of one in-flight `getToken()` call. -/
inductive Phase where
  | invoked
  | awaitingRefresh
  | finished
  deriving DecidableEq, Repr

/-- Shared state of a `TokenManager` with several pending `getToken()` calls:
the held token, each call's phase, the total refresh requests issued, and the
number currently in flight. -/
structure ConcState where
  token : StoredToken
  calls : List Phase
  requestsIssued : Nat
  inFlight : Nat
  deriving DecidableEq, Repr

/-- Run the synchronous prefix of call `i` (`oauth.ts:92-94`): read the clock,
check staleness against the *current* held token; if stale, enter `refresh()`
and issue the HTTP refresh request, suspending at the await; otherwise return
immediately. -/
def startCall (now : Int) (s : ConcState) (i : Nat) : ConcState :=
  match s.calls[i]? with
  | some .invoked =>
    if s.token.expiresAt - now < refreshBuffer then
      { s with calls := s.calls.set i .awaitingRefresh
               requestsIssued := s.requestsIssued + 1
               inFlight := s.inFlight + 1 }
    else { s with calls := s.calls.set i .finished }
  | _ => s

/-- Deliver the refresh response to suspended call `i` (`oauth.ts:100-101`):
the held token is replaced and the call finishes. -/
def deliverResponse (now : Int) (d : RedditTokenResponse) (s : ConcState) (i : Nat) :
    ConcState :=
  match s.calls[i]? with
  | some .awaitingRefresh =>
    { s with token := RedditOAuth.refreshedToken s.token.refreshToken now d
             calls := s.calls.set i .finished
             inFlight := s.inFlight - 1 }
  | _ => s

end TokenManager

/-- A JSON value, as `JSON.parse` / `JSON.stringify` see it. Numbers are
restricted to the integers, which covers every field this program writes. -/
inductive JsonValue where
  | null
  | bool (b : Bool)
  | num (n : Int)
  | str (s : String)
  | arr (elems : List JsonValue)
  | obj (fields : List (String × JsonValue))

/-- Look a key up in a JSON object; `none` on any other value. -/
def JsonValue.lookup (j : JsonValue) (key : String) : Option JsonValue :=
  match j with
  | .obj fields => fields.lookup key
  | _ => none

/-- State of the file at `tokenStorePath`: absent, unreadable, readable but
not valid JSON, or holding a parsed JSON document. -/
inductive FileState where
  | missing
  | unreadable
  | invalidJson
  | validJson (j : JsonValue)

namespace OAuthServer

/-- `OAuthServer.loadToken` (`oauth-server.ts:160-167`): `fs.readFile` then
`JSON.parse` inside a catch-all returning `null`. Whatever JSON the file holds
is returned as-is — there is no schema check between `JSON.parse(data)` and
`return`, so a wrong-shaped document is handed back as a `StoredToken`. -/
def loadToken : FileState → Option JsonValue
  | .validJson j => some j
  | _ => none

/-- The JSON document `JSON.stringify(token, null, 2)` produces for a
`StoredToken` (`oauth-server.ts:157`). -/
def serializeToken (t : StoredToken) : JsonValue :=
  .obj [("accessToken", .str t.accessToken),
        ("refreshToken", .str t.refreshToken),
        ("expiresAt", .num t.expiresAt),
        ("scope", .str t.scope)]

/-- `OAuthServer.saveToken` (`oauth-server.ts:156-158`) when the write
succeeds: the file now holds the serialized token. -/
def saveToken (t : StoredToken) : FileState :=
  .validJson (serializeToken t)

/-- What one inbound HTTP request did to the pending OAuth flow. -/
inductive FlowEffect where
  | pending
  | resolved (t : StoredToken)
  | rejected (msg : String)
  deriving DecidableEq, Repr

/-- Result of the callback server's request handler: the HTTP status written,
whether `server.close()` was called, and the effect on the flow's promise. -/
structure HandlerRun where
  status : Nat
  serverClosed : Bool
  effect : FlowEffect
  deriving DecidableEq, Repr

/-- An inbound request to the callback listener, reduced to the pieces the
handler reads: the pathname and the `error`, `code` and `state` query
parameters (`none` = parameter absent). -/
structure CallbackRequest where
  pathname : String
  error : Option String
  code : Option String
  state : Option String
  deriving DecidableEq, Repr

/-- The request handler of `OAuthServer.startOAuthFlow`
(`oauth-server.ts:66-114`), for one inbound request. `genState` is the random
state generated at `oauth-server.ts:64`; `exchangeResp` the outcome of the
token-endpoint POST should an exchange be attempted; `saveOutcome` the outcome
of `saveToken` on the exchanged token. Branches, in source order: non-callback
path → 404 and the flow stays pending; an `error` parameter → 400, close,
reject with that error; a missing/empty `code` or a `state` differing from
`genState` → 400, close, reject "Invalid callback parameters"; otherwise
exchange and save, resolving on success and rejecting (status 500) if either
throws. -/
def handleCallback (genState : String) (req : CallbackRequest) (now : Int)
    (exchangeResp : Except String RedditTokenResponse)
    (saveOutcome : Except String Unit) : HandlerRun :=
  if req.pathname ≠ "/callback" then
    { status := 404, serverClosed := false, effect := .pending }
  else
    match req.error with
    | some e =>
      { status := 400, serverClosed := true, effect := .rejected ("OAuth error: " ++ e) }
    | none =>
      if req.code.getD "" = "" ∨ req.state ≠ some genState then
        { status := 400, serverClosed := true
          effect := .rejected "Invalid callback parameters" }
      else
        match RedditOAuth.exchangeCodeForToken now exchangeResp with
        | .ok token =>
          match saveOutcome with
          | .ok _ => { status := 200, serverClosed := true, effect := .resolved token }
          | .error e => { status := 500, serverClosed := true, effect := .rejected e }
        | .error e => { status := 500, serverClosed := true, effect := .rejected e }

/-- Result of `authenticate()`: the credential returned (or the error the
returned promise rejects with), whether the one-shot refresh was attempted,
and whether the interactive `startOAuthFlow` was run. -/
structure AuthRun where
  result : Except String StoredToken
  refreshAttempted : Bool
  flowRun : Bool
  deriving Repr

/-- `OAuthServer.authenticate` (`oauth-server.ts:40-60`). `loaded` is what
`loadToken` yielded (taken here as a well-shaped token or absent);
`refreshResp` the token-endpoint outcome of the one-shot
`oauth.refreshAccessToken`; `saveOutcome` the outcome of `saveToken` on the
refreshed token; `flowOutcome` what `startOAuthFlow()` would settle with. The
`try` at `oauth-server.ts:49-56` covers both the refresh *and* the save, so a
failure of either falls through to the interactive flow. -/
def authenticate (now : Int) (loaded : Option StoredToken)
    (refreshResp : Except String RedditTokenResponse)
    (saveOutcome : Except String Unit)
    (flowOutcome : Except String StoredToken) : AuthRun :=
  match loaded with
  | some existing =>
    if existing.expiresAt > now then
      { result := .ok existing, refreshAttempted := false, flowRun := false }
    else
      match RedditOAuth.refreshAccessToken existing.refreshToken now refreshResp with
      | .ok refreshed =>
        match saveOutcome with
        | .ok _ => { result := .ok refreshed, refreshAttempted := true, flowRun := false }
        | .error _ => { result := flowOutcome, refreshAttempted := true, flowRun := true }
      | .error _ => { result := flowOutcome, refreshAttempted := true, flowRun := true }
  | none => { result := flowOutcome, refreshAttempted := false, flowRun := true }

end OAuthServer

/-! ## Claims -/

/-- C1: the claim says two near-simultaneous `getToken()` calls near expiry
trigger at most one outbound refresh request. `TokenManager` has no in-flight
guard: with an expired token, the first call's synchronous prefix issues a
refresh request and suspends; the second call's prefix then runs while that
renewal is in flight (`inFlight = 1`), still sees the stale token, and issues
a second request, leaving two renewals in flight simultaneously. -/
theorem C1_same_tick_calls_issue_two_refresh_requests :
    (TokenManager.startCall 0
        (⟨⟨"acc", "rt", 0, "identity"⟩, [.invoked, .invoked], 0, 0⟩ :
          TokenManager.ConcState) 0).inFlight = 1
    ∧ (TokenManager.startCall 0
        (TokenManager.startCall 0
          (⟨⟨"acc", "rt", 0, "identity"⟩, [.invoked, .invoked], 0, 0⟩ :
            TokenManager.ConcState) 0) 1).requestsIssued = 2
    ∧ (TokenManager.startCall 0
        (TokenManager.startCall 0
          (⟨⟨"acc", "rt", 0, "identity"⟩, [.invoked, .invoked], 0, 0⟩ :
            TokenManager.ConcState) 0) 1).inFlight = 2 := by
  refine ⟨by decide, by decide, by decide⟩

/-- C2 (counterexample): the claim says a `saveToken` failure on a freshly
obtained credential never fails the operation, so the flow "still resolves".
In the callback handler a successful code exchange followed by a failing save
is caught by the same `catch` as an exchange failure: the flow is rejected
with the save error, not resolved. -/
theorem C2_callback_save_failure_rejects_flow :
    OAuthServer.handleCallback "S" ⟨"/callback", none, some "abc", some "S"⟩ 0
        (.ok ⟨"newAcc", "bearer", 3600, some "newRt", "identity"⟩) (.error "EACCES") =
      { status := 500, serverClosed := true, effect := .rejected "EACCES" } := by
  rfl

/-- C2 (amended): a `TokenStore.save` failure on a freshly obtained credential
is non-fatal only on the lazy-refresh path: `TokenManager.getToken` still
returns the new access token and the bound listener logs the failure. In
`authenticate`, a save failure after a successful one-shot refresh falls into
the surrounding `catch` and the interactive flow is run instead of returning
the refreshed credential; in the callback handler, a save failure after a
successful exchange rejects the flow with status 500. -/
theorem C2_save_failure_scope (now : Int) (t existing : StoredToken)
    (d : RedditTokenResponse) (e : String)
    (flowOutcome : Except String StoredToken) (genState c : String) :
    (t.expiresAt - now < TokenManager.refreshBuffer →
      (TokenManager.getToken now t (.ok d) (.error e)).result =
          .ok (RedditOAuth.refreshedToken t.refreshToken now d).accessToken
        ∧ (TokenManager.getToken now t (.ok d) (.error e)).saveFailureLogged = true)
    ∧ (existing.expiresAt ≤ now →
        (OAuthServer.authenticate now (some existing) (.ok d) (.error e)
            flowOutcome).flowRun = true
        ∧ (OAuthServer.authenticate now (some existing) (.ok d) (.error e)
            flowOutcome).result = flowOutcome)
    ∧ (c ≠ "" → d.refresh_token.getD "" ≠ "" →
        OAuthServer.handleCallback genState ⟨"/callback", none, some c, some genState⟩
            now (.ok d) (.error e) =
          { status := 500, serverClosed := true, effect := .rejected e }) := by
  refine ⟨fun h => ?_, fun h => ?_, fun hc hd => ?_⟩
  · simp [TokenManager.getToken, if_pos h, RedditOAuth.refreshAccessToken,
      TokenManager.onTokenUpdate]
  · have hng : ¬ existing.expiresAt > now := not_lt.mpr h
    simp [OAuthServer.authenticate, if_neg hng, RedditOAuth.refreshAccessToken]
  · simp [OAuthServer.handleCallback, RedditOAuth.exchangeCodeForToken, hc, hd]

/-- C2 (witness): instantiates `C2_save_failure_scope` with an expired token
at `now = 0`, a successful refresh/exchange response, and a failing save. -/
theorem C2_save_failure_scope_witness :
    (TokenManager.getToken 0 ⟨"acc", "rt", 0, "identity"⟩
        (.ok ⟨"newAcc", "bearer", 3600, some "newRt", "identity"⟩)
        (.error "EACCES")).result = .ok "newAcc"
    ∧ (OAuthServer.authenticate 0 (some ⟨"acc", "rt", 0, "identity"⟩)
        (.ok ⟨"newAcc", "bearer", 3600, some "newRt", "identity"⟩) (.error "EACCES")
        (.ok ⟨"flowAcc", "flowRt", 1, "identity"⟩)).flowRun = true
    ∧ OAuthServer.handleCallback "S" ⟨"/callback", none, some "abc", some "S"⟩ 0
        (.ok ⟨"newAcc", "bearer", 3600, some "newRt", "identity"⟩) (.error "EACCES") =
      { status := 500, serverClosed := true, effect := .rejected "EACCES" } := by
  have h := C2_save_failure_scope 0 ⟨"acc", "rt", 0, "identity"⟩
    ⟨"acc", "rt", 0, "identity"⟩ ⟨"newAcc", "bearer", 3600, some "newRt", "identity"⟩
    "EACCES" (.ok ⟨"flowAcc", "flowRt", 1, "identity"⟩) "S" "abc"
  exact ⟨(h.1 (by decide)).1, (h.2.1 (by decide)).1, h.2.2 (by decide) (by decide)⟩

/-- C3 (counterexample): the claim says the interactive flow runs only if no
credential is stored or the refresh fails. With an expired stored token whose
refresh succeeds but whose persistence fails, `authenticate` still runs the
interactive flow and returns its outcome rather than the refreshed
credential. -/
theorem C3_save_failure_runs_flow_despite_refresh_success :
    RedditOAuth.refreshAccessToken "rt" 0
        (.ok ⟨"newAcc", "bearer", 3600, some "newRt", "identity"⟩) =
      .ok ⟨"newAcc", "newRt", 3600000, "identity"⟩
    ∧ OAuthServer.authenticate 0 (some ⟨"acc", "rt", 0, "identity"⟩)
        (.ok ⟨"newAcc", "bearer", 3600, some "newRt", "identity"⟩) (.error "ENOSPC")
        (.ok ⟨"flowAcc", "flowRt", 1, "identity"⟩) =
      { result := .ok ⟨"flowAcc", "flowRt", 1, "identity"⟩
        refreshAttempted := true, flowRun := true } := by
  exact ⟨rfl, rfl⟩

/-- C3 (amended): `authenticate()` follows this order: a stored credential
with `expiresAt > now` is returned as-is with no refresh attempt and no flow;
a stored but expired credential gets a one-shot refresh, and when both the
refresh and the save of its result succeed, the refreshed credential is
returned without running the interactive flow; the interactive flow is run —
and its outcome returned — when no credential is stored, when the refresh
fails, or when saving the refreshed credential fails. -/
theorem C3_authenticate_order (now : Int) (existing : StoredToken)
    (refreshResp : Except String RedditTokenResponse)
    (saveOutcome : Except String Unit) (flowOutcome : Except String StoredToken) :
    (now < existing.expiresAt →
      OAuthServer.authenticate now (some existing) refreshResp saveOutcome flowOutcome =
        { result := .ok existing, refreshAttempted := false, flowRun := false })
    ∧ (existing.expiresAt ≤ now → ∀ d, refreshResp = .ok d → saveOutcome = .ok () →
        OAuthServer.authenticate now (some existing) refreshResp saveOutcome flowOutcome =
          { result := .ok (RedditOAuth.refreshedToken existing.refreshToken now d)
            refreshAttempted := true, flowRun := false })
    ∧ (OAuthServer.authenticate now none refreshResp saveOutcome flowOutcome =
        { result := flowOutcome, refreshAttempted := false, flowRun := true })
    ∧ (existing.expiresAt ≤ now → ∀ e, refreshResp = .error e →
        OAuthServer.authenticate now (some existing) refreshResp saveOutcome flowOutcome =
          { result := flowOutcome, refreshAttempted := true, flowRun := true }) := by
  refine ⟨fun h => ?_, fun h d hd hs => ?_, ?_, fun h e he => ?_⟩
  · simp [OAuthServer.authenticate, if_pos h]
  · subst hd hs
    simp [OAuthServer.authenticate, if_neg (not_lt.mpr h), RedditOAuth.refreshAccessToken]
  · simp [OAuthServer.authenticate]
  · subst he
    simp [OAuthServer.authenticate, if_neg (not_lt.mpr h), RedditOAuth.refreshAccessToken]

/-- C3 (witness): instantiates `C3_authenticate_order` on a valid stored
token, an expired token with successful refresh and save, an empty store, and
an expired token with failing refresh. -/
theorem C3_authenticate_order_witness :
    OAuthServer.authenticate 0 (some ⟨"acc", "rt", 5, "identity"⟩) (.error "unused")
        (.ok ()) (.ok ⟨"flowAcc", "flowRt", 1, "identity"⟩) =
      { result := .ok ⟨"acc", "rt", 5, "identity"⟩
        refreshAttempted := false, flowRun := false }
    ∧ OAuthServer.authenticate 0 (some ⟨"acc", "rt", 0, "identity"⟩)
        (.ok ⟨"newAcc", "bearer", 3600, some "newRt", "identity"⟩) (.ok ())
        (.ok ⟨"flowAcc", "flowRt", 1, "identity"⟩) =
      { result := .ok (RedditOAuth.refreshedToken "rt" 0
          ⟨"newAcc", "bearer", 3600, some "newRt", "identity"⟩)
        refreshAttempted := true, flowRun := false }
    ∧ OAuthServer.authenticate 0 none (.error "unused") (.ok ())
        (.ok ⟨"flowAcc", "flowRt", 1, "identity"⟩) =
      { result := .ok ⟨"flowAcc", "flowRt", 1, "identity"⟩
        refreshAttempted := false, flowRun := true }
    ∧ OAuthServer.authenticate 0 (some ⟨"acc", "rt", 0, "identity"⟩)
        (.error "ECONNREFUSED") (.ok ()) (.ok ⟨"flowAcc", "flowRt", 1, "identity"⟩) =
      { result := .ok ⟨"flowAcc", "flowRt", 1, "identity"⟩
        refreshAttempted := true, flowRun := true } := by
  refine ⟨(C3_authenticate_order 0 ⟨"acc", "rt", 5, "identity"⟩ (.error "unused")
      (.ok ()) (.ok ⟨"flowAcc", "flowRt", 1, "identity"⟩)).1 (by decide),
    (C3_authenticate_order 0 ⟨"acc", "rt", 0, "identity"⟩
      (.ok ⟨"newAcc", "bearer", 3600, some "newRt", "identity"⟩) (.ok ())
      (.ok ⟨"flowAcc", "flowRt", 1, "identity"⟩)).2.1 (by decide) _ rfl rfl,
    (C3_authenticate_order 0 ⟨"acc", "rt", 0, "identity"⟩ (.error "unused") (.ok ())
      (.ok ⟨"flowAcc", "flowRt", 1, "identity"⟩)).2.2.1,
    (C3_authenticate_order 0 ⟨"acc", "rt", 0, "identity"⟩ (.error "ECONNREFUSED")
      (.ok ()) (.ok ⟨"flowAcc", "flowRt", 1, "identity"⟩)).2.2.2 (by decide) _ rfl⟩

/-- C4: when the held credential satisfies `expiresAt - now ≥ refreshBuffer`,
`getToken` performs no network call, leaves the held credential unchanged and
returns its access token; when `expiresAt - now < refreshBuffer` it issues a
refresh request before returning, and on a successful renewal it replaces the
held credential, invokes the update listener after the refresh request and
then returns the new access token. -/
theorem C4_getToken_leadtime_frame (now : Int) (t : StoredToken)
    (resp : Except String RedditTokenResponse) (saveOutcome : Except String Unit) :
    (TokenManager.refreshBuffer ≤ t.expiresAt - now →
      TokenManager.getToken now t resp saveOutcome =
        { finalToken := t, events := [], saveFailureLogged := false
          result := .ok t.accessToken })
    ∧ (t.expiresAt - now < TokenManager.refreshBuffer →
        TokenManager.TMEvent.refreshRequest ∈
          (TokenManager.getToken now t resp saveOutcome).events
        ∧ ∀ d, resp = .ok d →
            TokenManager.getToken now t resp saveOutcome =
              { finalToken := RedditOAuth.refreshedToken t.refreshToken now d
                events := [.refreshRequest, .listenerInvoked]
                saveFailureLogged := TokenManager.onTokenUpdate saveOutcome
                result := .ok (RedditOAuth.refreshedToken t.refreshToken now d).accessToken }) := by
  refine ⟨fun h => ?_, fun h => ⟨?_, fun d hd => ?_⟩⟩
  · simp [TokenManager.getToken, if_neg (not_lt.mpr h)]
  · cases resp with
    | error e => simp [TokenManager.getToken, if_pos h, RedditOAuth.refreshAccessToken]
    | ok d => simp [TokenManager.getToken, if_pos h, RedditOAuth.refreshAccessToken]
  · subst hd
    simp [TokenManager.getToken, if_pos h, RedditOAuth.refreshAccessToken]

/-- C4 (witness): instantiates `C4_getToken_leadtime_frame` with a token far
from expiry at `now = 0`, and with an expired token and a successful refresh
response. -/
theorem C4_getToken_leadtime_frame_witness :
    TokenManager.getToken 0 ⟨"acc", "rt", 300000, "identity"⟩ (.error "unused")
        (.ok ()) =
      { finalToken := ⟨"acc", "rt", 300000, "identity"⟩, events := []
        saveFailureLogged := false, result := .ok "acc" }
    ∧ TokenManager.getToken 0 ⟨"acc", "rt", 299999, "identity"⟩
        (.ok ⟨"newAcc", "bearer", 3600, some "newRt", "identity"⟩) (.ok ()) =
      { finalToken := RedditOAuth.refreshedToken "rt" 0
          ⟨"newAcc", "bearer", 3600, some "newRt", "identity"⟩
        events := [.refreshRequest, .listenerInvoked]
        saveFailureLogged := TokenManager.onTokenUpdate (.ok ())
        result := .ok (RedditOAuth.refreshedToken "rt" 0
          ⟨"newAcc", "bearer", 3600, some "newRt", "identity"⟩).accessToken } := by
  refine ⟨(C4_getToken_leadtime_frame 0 ⟨"acc", "rt", 300000, "identity"⟩
      (.error "unused") (.ok ())).1 (by decide),
    ((C4_getToken_leadtime_frame 0 ⟨"acc", "rt", 299999, "identity"⟩
      (.ok ⟨"newAcc", "bearer", 3600, some "newRt", "identity"⟩) (.ok ())).2
      (by decide)).2 _ rfl⟩

/-- C5 (counterexample): the claim says every callback on the registered path
lacking a `code` or carrying a mismatched `state` fails with "Invalid callback
parameters". The handler checks the `error` parameter first: a request with an
`error` parameter and no `code` at all fails with that OAuth error instead. -/
theorem C5_error_param_takes_precedence :
    (OAuthServer.handleCallback "S" ⟨"/callback", some "access_denied", none, none⟩ 0
        (.error "unused") (.ok ())).effect = .rejected "OAuth error: access_denied"
    ∧ OAuthServer.FlowEffect.rejected "OAuth error: access_denied" ≠
        .rejected "Invalid callback parameters" := by
  exact ⟨rfl, by decide⟩

/-- C5 (amended): for every callback request on the registered path whose
`code` parameter is absent or whose `state` differs from the generated state,
the listener is stopped and the flow never resolves with a credential; when no
`error` parameter is present the flow is rejected with "Invalid callback
parameters" (an `error` parameter takes precedence and rejects the flow with
that OAuth error). -/
theorem C5_invalid_callback_fails (genState : String)
    (req : OAuthServer.CallbackRequest) (now : Int)
    (exchangeResp : Except String RedditTokenResponse)
    (saveOutcome : Except String Unit)
    (hpath : req.pathname = "/callback")
    (hbad : req.code = none ∨ req.state ≠ some genState) :
    (OAuthServer.handleCallback genState req now exchangeResp saveOutcome).serverClosed
        = true
    ∧ (∀ t, (OAuthServer.handleCallback genState req now exchangeResp
        saveOutcome).effect ≠ .resolved t)
    ∧ (req.error = none →
        (OAuthServer.handleCallback genState req now exchangeResp saveOutcome).effect =
          .rejected "Invalid callback parameters") := by
  have hcond : req.code.getD "" = "" ∨ req.state ≠ some genState := by
    cases hbad with
    | inl h => exact Or.inl (by simp [h])
    | inr h => exact Or.inr h
  cases herr : req.error with
  | some e =>
    refine ⟨?_, fun t => ?_, fun hne => ?_⟩
    · simp [OAuthServer.handleCallback, hpath, herr]
    · simp [OAuthServer.handleCallback, hpath, herr]
    · cases hne
  | none =>
    refine ⟨?_, fun t => ?_, fun _ => ?_⟩
    · simp [OAuthServer.handleCallback, hpath, herr, if_pos hcond]
    · simp [OAuthServer.handleCallback, hpath, herr, if_pos hcond]
    · simp [OAuthServer.handleCallback, hpath, herr, if_pos hcond]

/-- C5 (witness): instantiates `C5_invalid_callback_fails` with a callback
carrying a `code` but a mismatched `state`. -/
theorem C5_invalid_callback_fails_witness :
    (OAuthServer.handleCallback "S" ⟨"/callback", none, some "abc", some "T"⟩ 0
        (.error "unused") (.ok ())).serverClosed = true
    ∧ (OAuthServer.handleCallback "S" ⟨"/callback", none, some "abc", some "T"⟩ 0
        (.error "unused") (.ok ())).effect = .rejected "Invalid callback parameters" := by
  have h := C5_invalid_callback_fails "S" ⟨"/callback", none, some "abc", some "T"⟩ 0
    (.error "unused") (.ok ()) rfl (Or.inr (by decide))
  exact ⟨h.1, h.2.2 rfl⟩

/-- C6: a code-exchange response that lacks a `refresh_token` makes
`exchangeCodeForToken` fail with the no-refresh-token error even though an
`access_token` is present, and a callback that reaches the exchange with such
a response is rejected (the flow fails). -/
theorem C6_missing_refresh_token_fails_exchange (now expiresIn : Int)
    (accessTok tokType sc genState c : String) (saveOutcome : Except String Unit)
    (hc : c ≠ "") :
    RedditOAuth.exchangeCodeForToken now
        (.ok ⟨accessTok, tokType, expiresIn, none, sc⟩) =
      .error RedditOAuth.noRefreshTokenMsg
    ∧ (OAuthServer.handleCallback genState ⟨"/callback", none, some c, some genState⟩
        now (.ok ⟨accessTok, tokType, expiresIn, none, sc⟩) saveOutcome).effect =
      .rejected RedditOAuth.noRefreshTokenMsg := by
  constructor
  · simp [RedditOAuth.exchangeCodeForToken]
  · simp [OAuthServer.handleCallback, RedditOAuth.exchangeCodeForToken, hc]

/-- C6 (witness): instantiates `C6_missing_refresh_token_fails_exchange` with
a response carrying an access token but no refresh token. -/
theorem C6_missing_refresh_token_fails_exchange_witness :
    RedditOAuth.exchangeCodeForToken 0 (.ok ⟨"newAcc", "bearer", 3600, none, "identity"⟩)
        = .error RedditOAuth.noRefreshTokenMsg
    ∧ (OAuthServer.handleCallback "S" ⟨"/callback", none, some "abc", some "S"⟩ 0
        (.ok ⟨"newAcc", "bearer", 3600, none, "identity"⟩) (.ok ())).effect =
      .rejected RedditOAuth.noRefreshTokenMsg :=
  C6_missing_refresh_token_fails_exchange 0 3600 "newAcc" "bearer" "identity" "S" "abc"
    (.ok ()) (by decide)

/-- C7 (counterexample): the claim says a refresh response containing a
`refresh_token` makes the returned credential carry that new token. A response
containing the (falsy) empty-string token is present yet the previous token is
kept: `data.refresh_token || refreshToken` discards it. -/
theorem C7_empty_refresh_token_keeps_old :
    RedditOAuth.refreshAccessToken "oldRt" 0
        (.ok ⟨"newAcc", "bearer", 3600, some "", "identity"⟩) =
      .ok ⟨"newAcc", "oldRt", 3600000, "identity"⟩
    ∧ (⟨"newAcc", "oldRt", 3600000, "identity"⟩ : StoredToken).refreshToken ≠ "" := by
  exact ⟨rfl, by decide⟩

/-- C7 (amended): on a successful refresh call, a response whose
`refresh_token` is absent or empty leaves the previous refresh token
unchanged, and a response containing a nonempty `refresh_token` makes the
returned credential carry that new one. -/
theorem C7_refresh_token_rotation (rt : String) (now : Int)
    (d : RedditTokenResponse) :
    RedditOAuth.refreshAccessToken rt now (.ok d) =
        .ok (RedditOAuth.refreshedToken rt now d)
    ∧ (d.refresh_token.getD "" = "" →
        (RedditOAuth.refreshedToken rt now d).refreshToken = rt)
    ∧ (∀ s, d.refresh_token = some s → s ≠ "" →
        (RedditOAuth.refreshedToken rt now d).refreshToken = s) := by
  refine ⟨rfl, fun h => ?_, fun s hs hne => ?_⟩
  · simp [RedditOAuth.refreshedToken, h]
  · simp [RedditOAuth.refreshedToken, hs, hne]

/-- C7 (witness): instantiates `C7_refresh_token_rotation` once with a
response lacking a refresh token and once with a nonempty rotated one. -/
theorem C7_refresh_token_rotation_witness :
    (RedditOAuth.refreshedToken "oldRt" 0
        ⟨"newAcc", "bearer", 3600, none, "identity"⟩).refreshToken = "oldRt"
    ∧ (RedditOAuth.refreshedToken "oldRt" 0
        ⟨"newAcc", "bearer", 3600, some "rotatedRt", "identity"⟩).refreshToken =
      "rotatedRt" :=
  ⟨(C7_refresh_token_rotation "oldRt" 0
      ⟨"newAcc", "bearer", 3600, none, "identity"⟩).2.1 (by decide),
    (C7_refresh_token_rotation "oldRt" 0
      ⟨"newAcc", "bearer", 3600, some "rotatedRt", "identity"⟩).2.2 "rotatedRt" rfl
      (by decide)⟩

/-- C8: every credential produced by a successful code exchange or refresh has
`expiresAt = now + expires_in * 1000`, the issue time plus the
provider-declared lifetime in seconds times 1000. -/
theorem C8_expiresAt_derived_from_lifetime (rt : String) (now : Int)
    (d : RedditTokenResponse) (t t' : StoredToken) :
    (RedditOAuth.exchangeCodeForToken now (.ok d) = .ok t →
      t.expiresAt = now + d.expires_in * 1000)
    ∧ (RedditOAuth.refreshAccessToken rt now (.ok d) = .ok t' →
      t'.expiresAt = now + d.expires_in * 1000) := by
  constructor
  · intro h
    unfold RedditOAuth.exchangeCodeForToken at h
    by_cases hrt : d.refresh_token.getD "" = ""
    · simp [hrt] at h
    · simp [hrt] at h
      rw [← h]
  · intro h
    unfold RedditOAuth.refreshAccessToken at h
    simp at h
    rw [← h]
    rfl

/-- C8 (witness): instantiates `C8_expiresAt_derived_from_lifetime` at
`now = 17`, `expires_in = 3600`, discharging both success hypotheses with the
concrete produced credentials. -/
theorem C8_expiresAt_derived_from_lifetime_witness :
    (⟨"newAcc", "newRt", 3600017, "identity"⟩ : StoredToken).expiresAt =
        17 + 3600 * 1000
    ∧ (⟨"newAcc", "oldRt", 3600017, "identity"⟩ : StoredToken).expiresAt =
        17 + 3600 * 1000 :=
  ⟨(C8_expiresAt_derived_from_lifetime "oldRt" 17
      ⟨"newAcc", "bearer", 3600, some "newRt", "identity"⟩
      ⟨"newAcc", "newRt", 3600017, "identity"⟩
      ⟨"newAcc", "oldRt", 3600017, "identity"⟩).1 rfl,
    (C8_expiresAt_derived_from_lifetime "oldRt" 17
      ⟨"newAcc", "bearer", 3600, none, "identity"⟩
      ⟨"newAcc", "newRt", 3600017, "identity"⟩
      ⟨"newAcc", "oldRt", 3600017, "identity"⟩).2 rfl⟩

/-- C9: saving a credential and then loading yields a document equal to the
saved credential in all four fields (`accessToken`, `refreshToken`,
`expiresAt`, `scope`). -/
theorem C9_save_load_roundtrip (c : StoredToken) :
    OAuthServer.loadToken (OAuthServer.saveToken c) = some (OAuthServer.serializeToken c)
    ∧ (OAuthServer.serializeToken c).lookup "accessToken" = some (.str c.accessToken)
    ∧ (OAuthServer.serializeToken c).lookup "refreshToken" = some (.str c.refreshToken)
    ∧ (OAuthServer.serializeToken c).lookup "expiresAt" = some (.num c.expiresAt)
    ∧ (OAuthServer.serializeToken c).lookup "scope" = some (.str c.scope) :=
  ⟨rfl, rfl, rfl, rfl, rfl⟩

/-- C10: `loadToken` is total and unvalidated: a missing, unreadable or
unparseable file yields `none`, and any parsed JSON document — including one
of the wrong shape, such as an object with only an `accessToken` field — is
returned as the credential unchanged, with no schema check. -/
theorem C10_loadToken_total_unvalidated :
    OAuthServer.loadToken .missing = none
    ∧ OAuthServer.loadToken .unreadable = none
    ∧ OAuthServer.loadToken .invalidJson = none
    ∧ (∀ j, OAuthServer.loadToken (.validJson j) = some j)
    ∧ OAuthServer.loadToken (.validJson (.obj [("accessToken", .str "only")])) =
        some (.obj [("accessToken", .str "only")]) :=
  ⟨rfl, rfl, rfl, fun _ => rfl, rfl⟩
